import Mathlib

/-!
Verification of the fact-checker gateway server (`src/server.js`).

The program is a small Express HTTP relay: it validates an input text,
forwards it to an external generative-AI provider, and normalizes the
provider's JSON reply into a fixed shape.  This file gives a shallow
embedding of the request handlers and proves properties of them.

JavaScript values flowing through the handler (the request body's `text`
field, the `JSON.parse` result of the provider reply, the response body)
are modelled by `JsVal`.  JSON numbers are modelled as rationals; the IEEE
`NaN` value, which the normalization code can produce via `Math.min` /
`Math.max` on non-numeric input, gets its own constructor (a `JSON.parse`
result never contains it, but a normalized object can).
-/

namespace FactChecker

/-- A JavaScript value as manipulated by the handler.  `vUndefined` models
the result of reading an absent property; `vNaN` the IEEE not-a-number
value; `vObj` a plain object as an ordered association list (JSON.parse
keeps one entry per key). -/
inductive JsVal where
  | vUndefined
  | vNull
  | vNaN
  | vBool (b : Bool)
  | vNum (q : ℚ)
  | vStr (s : String)
  | vArr (xs : List JsVal)
  | vObj (fields : List (String × JsVal))

/-- JavaScript truthiness, as tested by `!text`, `score || 5`, etc.
Falsy values: `undefined`, `null`, `NaN`, `false`, `0`, `""`. -/
def truthy : JsVal → Bool
  | .vUndefined => false
  | .vNull => false
  | .vNaN => false
  | .vBool b => b
  | .vNum q => q != 0
  | .vStr s => s != ""
  | .vArr _ => true
  | .vObj _ => true

/-- Numeric value of a list of decimal digit characters. -/
def digitsVal (cs : List Char) : ℚ :=
  cs.foldl (fun n c => 10 * n + ((c.toNat : ℚ) - 48)) 0

/-- JavaScript `ToNumber` on a string: surrounding whitespace is ignored,
the empty string is `0`, and a (signed) decimal numeral with an optional
fractional part is parsed; any other string is `NaN` (`none`).  Exotic
numeral forms (hexadecimal, exponents, `Infinity`), which no claim
touches, are outside the model and also map to `none`. -/
def strToNumber (s : String) : Option ℚ :=
  let t := ((s.toList.dropWhile Char.isWhitespace).reverse.dropWhile
      Char.isWhitespace).reverse
  if t.isEmpty then some 0 else
  let signBody : ℚ × List Char :=
    match t with
    | '-' :: cs => (-1, cs)
    | '+' :: cs => (1, cs)
    | cs => (1, cs)
  let intPart := signBody.2.takeWhile (fun c => c ≠ '.')
  let rest := signBody.2.dropWhile (fun c => c ≠ '.')
  let fracPart : Option (List Char) :=
    match rest with
    | [] => some []
    | '.' :: cs => some cs
    | _ => none
  match fracPart with
  | none => none
  | some frac =>
    if intPart.all Char.isDigit ∧ frac.all Char.isDigit ∧
        (intPart ≠ [] ∨ frac ≠ []) then
      some (signBody.1 * (digitsVal intPart + digitsVal frac / 10 ^ frac.length))
    else none

/-- JavaScript `ToNumber` coercion, as applied by `Math.max` / `Math.min`
to their arguments; `none` stands for `NaN`.  Arrays coerce through their
string form: `[]` gives `0`, a one-element array coerces like its element's
string form (modelled for number, string and null elements; other
one-element arrays and nestings map to `NaN`), a longer array is `NaN`
(its string form contains a comma).  A plain object coerces to the string
`"[object Object]"`, which is `NaN`. -/
def toNumber : JsVal → Option ℚ
  | .vUndefined => none
  | .vNull => some 0
  | .vNaN => none
  | .vBool b => some (if b then 1 else 0)
  | .vNum q => some q
  | .vStr s => strToNumber s
  | .vArr [] => some 0
  | .vArr [.vNum q] => some q
  | .vArr [.vStr s] => strToNumber s
  | .vArr [.vNull] => some 0
  | .vArr _ => none
  | .vObj _ => none

/-- `Math.min(10, Math.max(0, v))` — the score clamp at `server.js:142`.
`Math.max`/`Math.min` apply `ToNumber` to each argument and return `NaN`
when any argument is `NaN`. -/
def clampScore (v : JsVal) : JsVal :=
  match toNumber v with
  | none => .vNaN
  | some q => .vNum (min 10 (max 0 q))

/-- JavaScript `v || d`: the left operand when truthy, else the default. -/
def jsOr (v d : JsVal) : JsVal :=
  if truthy v then v else d

/-- Property read on an object's field list: the bound value, or
`undefined` when the key is absent.  The first entry wins, matching a
`JSON.parse` result where keys are unique. -/
def getField : List (String × JsVal) → String → JsVal
  | [], _ => .vUndefined
  | (k', v) :: rest, k => if k' = k then v else getField rest k

/-- Whether a key is present in an object's field list. -/
def hasKey : List (String × JsVal) → String → Bool
  | [], _ => false
  | (k', _) :: rest, k => k' = k || hasKey rest k

/-- Property assignment `obj.k = v` on an object's field list: an existing
key keeps its position and is overwritten, a new key is appended (JS
property insertion order; a `JSON.parse` result has unique keys). -/
def setField : List (String × JsVal) → String → JsVal → List (String × JsVal)
  | [], k, v => [(k, v)]
  | (k₁, w) :: rest, k, v =>
    if k₁ = k then (k, v) :: rest else (k₁, w) :: setField rest k v

/-- The normalization block at `server.js:142-144`, applied to the field
list of a parsed provider reply object:

    analysis.score = Math.min(10, Math.max(0, analysis.score || 5));
    analysis.sources = analysis.sources || [];
    analysis.claimsChecked = analysis.claimsChecked || 0;

The assignments are sequenced: each later read sees the earlier writes. -/
def normalizeFields (fields : List (String × JsVal)) :
    List (String × JsVal) :=
  let f1 := setField fields "score"
    (clampScore (jsOr (getField fields "score") (.vNum 5)))
  let f2 := setField f1 "sources" (jsOr (getField f1 "sources") (.vArr []))
  setField f2 "claimsChecked" (jsOr (getField f2 "claimsChecked") (.vNum 0))

/-- An HTTP response: status code and JSON body. -/
structure HttpResponse where
  status : Nat
  body : JsVal

/-- The canned degenerate body returned for missing / non-string / short
input (`server.js:80-86`). -/
def degenerateBody : JsVal :=
  .vObj [("score", .vNum 5), ("risk", .vStr "Medium Risk"),
    ("summary", .vStr "Post too short for meaningful analysis."),
    ("sources", .vArr []), ("claimsChecked", .vNum 0)]

/-- The body returned when `GEMINI_API_KEY` is absent (`server.js:92-99`). -/
def noKeyBody : JsVal :=
  .vObj [("error", .vStr "Server configuration error"), ("score", .vNum 5),
    ("risk", .vStr "Medium Risk"),
    ("summary", .vStr "Server not properly configured."),
    ("sources", .vArr []), ("claimsChecked", .vNum 0)]

/-- The body produced by the catch block (`server.js:152-159`). -/
def failureBody : JsVal :=
  .vObj [("error", .vStr "Analysis failed"), ("score", .vNum 5),
    ("risk", .vStr "Medium Risk"),
    ("summary", .vStr "Could not complete fact-check due to server error."),
    ("sources", .vArr []), ("claimsChecked", .vNum 0)]

/-- Outcome of the single outbound provider call, from the handler's point
of view: the awaited call (or reading `response.text()`) throws, or it
yields a reply text whose `JSON.parse` result is `some v`, or `none` when
parsing throws. -/
inductive CallOutcome where
  | throwErr
  | reply (parsed : Option JsVal)

/-- The guard `!process.env.GEMINI_API_KEY` (`server.js:90`), negated: the
key is present when the environment variable is set and non-empty (an
empty string is falsy). -/
def keyPresent : Option String → Bool
  | none => false
  | some s => s != ""

/-- Whether `text` is a string value. -/
def isStringVal : JsVal → Bool
  | .vStr _ => true
  | _ => false

/-- `text.length` for a string value (only consulted on strings: the
validation guard tests `typeof text !== 'string'` first). -/
def textLength : JsVal → Nat
  | .vStr s => s.length
  | _ => 0

/-- The underlying string of a string value. -/
def textStr : JsVal → String
  | .vStr s => s
  | _ => ""

/-- `text.substring(0, 5000)` (`server.js:103`): the first `n` characters
of `s`, or all of `s` when it is shorter. -/
def jsSubstring (s : String) (n : Nat) : String :=
  String.mk (s.toList.take n)

/-- The validation guard at `server.js:79`:
`!text || typeof text !== 'string' || text.length < 50`. -/
def shortCircuit (t : JsVal) : Bool :=
  !truthy t || !isStringVal t || textLength t < 50

/-- Lines 137-148 of `server.js` applied to a successfully parsed reply
value, together with the ES-module (strict mode) semantics of the three
property assignments:
* on an object, the assignments update the fields and the normalized
  object is sent with status 200;
* on an array, reading `.score` etc. yields `undefined` and the
  assignments succeed, but `res.json`'s `JSON.stringify` serializes only
  the array elements, dropping the added named properties, so the caller
  receives the bare array with status 200;
* on `null` or a primitive, reading a property of `null` or assigning a
  property to a primitive throws a `TypeError`, which the surrounding
  catch converts to the canned 500 failure. -/
def respondParsed (v : JsVal) : HttpResponse :=
  match v with
  | .vObj fields => ⟨200, .vObj (normalizeFields fields)⟩
  | .vArr xs => ⟨200, .vArr xs⟩
  | _ => ⟨500, failureBody⟩

/-- Result of one `/analyze` request: the HTTP response, and the text sent
to the provider (`none` when no outbound call was made). -/
structure AnalyzeResult where
  resp : HttpResponse
  sent : Option String

/-- The `POST /analyze` handler (`server.js:74-161`).  `apiKey` is the
`GEMINI_API_KEY` environment variable, `text` the request body's `text`
field, `outcome` the behaviour of the one outbound provider call.  The
guards run in source order: input validation, then the credential check,
then truncation (`text.substring(0, 5000)`) and the call. -/
def analyze (apiKey : Option String) (text : JsVal) (outcome : CallOutcome) :
    AnalyzeResult :=
  if shortCircuit text then ⟨⟨200, degenerateBody⟩, none⟩
  else if !keyPresent apiKey then ⟨⟨500, noKeyBody⟩, none⟩
  else
    let truncated := jsSubstring (textStr text) 5000
    match outcome with
    | .throwErr => ⟨⟨500, failureBody⟩, some truncated⟩
    | .reply none => ⟨⟨500, failureBody⟩, some truncated⟩
    | .reply (some v) => ⟨respondParsed v, some truncated⟩

/-- The `GET /health` handler (`server.js:65-71`).  `apiKey` models the
process configuration (the handler reads none of it); `now` is
`new Date().toISOString()`. -/
def healthHandler (apiKey : Option String) (now : String) : HttpResponse :=
  ⟨200, .vObj [("status", .vStr "ok"), ("timestamp", .vStr now),
    ("model", .vStr "gemini-2.0-flash-exp")]⟩

/-- Field read on a response body (for stating properties of the returned
JSON object). -/
def bodyField (r : HttpResponse) (k : String) : JsVal :=
  match r.body with
  | .vObj fs => getField fs k
  | _ => .vUndefined

/-- Whether a response body value is a number within `[0, 10]`. -/
def scoreInRange : JsVal → Bool
  | .vNum q => decide (0 ≤ q ∧ q ≤ 10)
  | _ => false

/-- Whether a body carries all five fields of an `AnalysisResult`. -/
def fullShape (v : JsVal) : Bool :=
  match v with
  | .vObj fs => hasKey fs "score" && hasKey fs "risk" && hasKey fs "summary"
      && hasKey fs "sources" && hasKey fs "claimsChecked"
  | _ => false

/-- A 50-character string, the shortest valid input. -/
def fiftyA : String := String.mk (List.replicate 50 'a')

/-- Another 50-character string. -/
def fiftyB : String := String.mk (List.replicate 50 'b')

/-! ### Association-list lemmas for object reads and writes -/

theorem getField_setField_same (fs : List (String × JsVal)) (k : String)
    (v : JsVal) : getField (setField fs k v) k = v := by
  induction fs with
  | nil => simp [setField, getField]
  | cons p rest ih =>
    obtain ⟨k₁, w⟩ := p
    by_cases hk₁ : k₁ = k
    · simp [setField, hk₁, getField]
    · simp [setField, hk₁, getField, ih]

theorem getField_setField_other (fs : List (String × JsVal)) (k k' : String)
    (v : JsVal) (h : k' ≠ k) :
    getField (setField fs k v) k' = getField fs k' := by
  induction fs with
  | nil => simp [setField, getField, Ne.symm h]
  | cons p rest ih =>
    obtain ⟨k₁, w⟩ := p
    by_cases hk₁ : k₁ = k
    · subst hk₁
      simp [setField, getField, Ne.symm h]
    · by_cases hk₂ : k₁ = k' <;> simp [setField, hk₁, getField, hk₂, h, ih]

theorem getField_of_hasKey_false (fs : List (String × JsVal)) (k : String)
    (h : hasKey fs k = false) : getField fs k = .vUndefined := by
  induction fs with
  | nil => rfl
  | cons p rest ih =>
    obtain ⟨k₁, w⟩ := p
    simp [hasKey] at h
    simp [getField, h.1, ih h.2]

/-! ### What normalization does to each field -/

theorem normalize_score (fs : List (String × JsVal)) :
    getField (normalizeFields fs) "score"
      = clampScore (jsOr (getField fs "score") (.vNum 5)) := by
  simp only [normalizeFields]
  rw [getField_setField_other _ _ _ _ (by decide),
    getField_setField_other _ _ _ _ (by decide), getField_setField_same]

theorem normalize_sources (fs : List (String × JsVal)) :
    getField (normalizeFields fs) "sources"
      = jsOr (getField fs "sources") (.vArr []) := by
  simp only [normalizeFields]
  rw [getField_setField_other _ _ _ _ (by decide), getField_setField_same,
    getField_setField_other _ _ _ _ (by decide)]

theorem normalize_claims (fs : List (String × JsVal)) :
    getField (normalizeFields fs) "claimsChecked"
      = jsOr (getField fs "claimsChecked") (.vNum 0) := by
  simp only [normalizeFields]
  rw [getField_setField_same, getField_setField_other _ _ _ _ (by decide),
    getField_setField_other _ _ _ _ (by decide)]

theorem normalize_other (fs : List (String × JsVal)) (k : String)
    (h1 : k ≠ "score") (h2 : k ≠ "sources") (h3 : k ≠ "claimsChecked") :
    getField (normalizeFields fs) k = getField fs k := by
  simp only [normalizeFields]
  rw [getField_setField_other _ _ _ _ h3, getField_setField_other _ _ _ _ h2,
    getField_setField_other _ _ _ _ h1]

/-- On an object reply behind a valid input and a configured key, the
handler responds 200 with the normalized object. -/
theorem analyze_obj (k : Option String) (t : JsVal)
    (fields : List (String × JsVal)) (hk : keyPresent k = true)
    (ht : shortCircuit t = false) :
    analyze k t (.reply (some (.vObj fields))) =
      ⟨⟨200, .vObj (normalizeFields fields)⟩,
        some (jsSubstring (textStr t) 5000)⟩ := by
  simp [analyze, ht, hk, respondParsed]

/-- The clamp sends any actual number into `[0, 10]`. -/
theorem clampScore_num_inRange (q : ℚ) :
    scoreInRange (clampScore (.vNum q)) = true := by
  simp only [clampScore, toNumber, scoreInRange, decide_eq_true_eq]
  exact ⟨le_min (by norm_num) (le_max_left 0 q), min_le_left 10 _⟩

/-! ### The claims -/

/-- C1: a request whose `text` is missing, not a string, or shorter than 50
characters gets status 200 with the canned degenerate body (score 5,
"Medium Risk", the too-short summary, empty sources, claimsChecked 0) and
no outbound provider call is made — for any key configuration and any
would-be provider behaviour.  In particular `text = ""` hits this path. -/
theorem analyze_short_input (k : Option String) (t : JsVal) (o : CallOutcome)
    (h : shortCircuit t = true) :
    analyze k t o = ⟨⟨200, degenerateBody⟩, none⟩ := by
  simp [analyze, h]

theorem analyze_short_input_witness :
    shortCircuit (.vStr "") = true ∧
    analyze (some "key") (.vStr "") .throwErr = ⟨⟨200, degenerateBody⟩, none⟩ :=
  ⟨by decide, analyze_short_input (some "key") (.vStr "") .throwErr (by decide)⟩

/-- C2 counterexample: a provider reply whose `score` is the (truthy,
non-numeric) empty object escapes the `score || 5` default; `Math.max` /
`Math.min` then coerce it to `NaN`, so the returned score is `NaN` — not a
number within `[0, 10]`.  The claim that the returned score is always in
`[0, 10]` regardless of the supplied value is therefore false. -/
theorem score_range_cex :
    bodyField (analyze (some "key") (.vStr fiftyA)
      (.reply (some (.vObj [("score", .vObj []), ("risk", .vStr "Trustworthy"),
        ("summary", .vStr "ok"), ("sources", .vArr []),
        ("claimsChecked", .vNum 2)])))).resp "score" = .vNaN ∧
    scoreInRange (bodyField (analyze (some "key") (.vStr fiftyA)
      (.reply (some (.vObj [("score", .vObj []), ("risk", .vStr "Trustworthy"),
        ("summary", .vStr "ok"), ("sources", .vArr []),
        ("claimsChecked", .vNum 2)])))).resp "score") = false :=
  ⟨rfl, by decide⟩

/-- C2 (amended): for every provider reply object whose `score` field is a
JSON number, or is falsy (missing, null, 0, `""`, false), the returned
score is a number within `[0, 10]`.  (A truthy non-numeric score instead
coerces to `NaN`.) -/
theorem score_range_amended (k : Option String) (t : JsVal)
    (fields : List (String × JsVal)) (hk : keyPresent k = true)
    (ht : shortCircuit t = false)
    (h : (∃ q : ℚ, getField fields "score" = .vNum q) ∨
      truthy (getField fields "score") = false) :
    scoreInRange (bodyField
      (analyze k t (.reply (some (.vObj fields)))).resp "score") = true := by
  rw [analyze_obj _ _ _ hk ht]
  show scoreInRange (getField (normalizeFields fields) "score") = true
  rw [normalize_score]
  rcases h with ⟨q, hq⟩ | h
  · rw [hq]
    unfold jsOr
    by_cases h0 : truthy (.vNum q) = true
    · rw [if_pos h0]
      exact clampScore_num_inRange q
    · rw [if_neg h0]
      exact clampScore_num_inRange 5
  · rw [show jsOr (getField fields "score") (.vNum 5) = .vNum 5 from by
      simp [jsOr, h]]
    exact clampScore_num_inRange 5

theorem score_range_amended_witness :
    keyPresent (some "key") = true ∧ shortCircuit (.vStr fiftyA) = false ∧
    scoreInRange (bodyField (analyze (some "key") (.vStr fiftyA)
      (.reply (some (.vObj [("score", .vNum 42)])))).resp "score") = true :=
  ⟨by decide, by decide,
    score_range_amended (some "key") (.vStr fiftyA) [("score", .vNum 42)]
      (by decide) (by decide) (Or.inl ⟨42, rfl⟩)⟩

/-- C3 counterexample: with the credential absent, a request with
`text = ""` is answered by the input-validation guard, which runs before
the credential check — status 200 with the degenerate body and no error
marker, not a 500.  The claim that every call fails with 500 independent
of the input text is therefore false. -/
theorem missing_key_cex :
    (analyze none (.vStr "") .throwErr).resp.status = 200 ∧
    (analyze none (.vStr "") .throwErr).resp.status ≠ 500 ∧
    bodyField (analyze none (.vStr "") .throwErr).resp "error" = .vUndefined :=
  ⟨rfl, by decide, rfl⟩

/-- C3 (amended): with the credential absent (unset or empty), every
`/analyze` call whose text passes input validation (a non-empty string of
length ≥ 50) returns status 500 with the error-marked, degraded body
(score 5, "Medium Risk", empty sources, claimsChecked 0) and makes no
outbound call; degenerate-text calls are instead answered by the
validation guard with the 200 degenerate body. -/
theorem missing_key_amended (k : Option String) (t : JsVal) (o : CallOutcome)
    (hk : keyPresent k = false) (ht : shortCircuit t = false) :
    analyze k t o = ⟨⟨500, noKeyBody⟩, none⟩ := by
  simp [analyze, ht, hk]

theorem missing_key_amended_witness :
    keyPresent none = false ∧ shortCircuit (.vStr fiftyA) = false ∧
    analyze none (.vStr fiftyA) .throwErr = ⟨⟨500, noKeyBody⟩, none⟩ :=
  ⟨rfl, by decide,
    missing_key_amended none (.vStr fiftyA) .throwErr rfl (by decide)⟩

/-- C4: on the provider-call path, if the awaited call throws or its reply
fails to parse as JSON, the catch block answers with status 500 and the
canned failure body, which carries the error marker and all five result
fields (score 5, "Medium Risk", generic failure summary, empty sources,
claimsChecked 0); the handler, a total function in this embedding, yields
such a fully-shaped response rather than propagating the exception. -/
theorem analyze_failure_canned (k : Option String) (t : JsVal)
    (hk : keyPresent k = true) (ht : shortCircuit t = false) :
    analyze k t .throwErr =
      ⟨⟨500, failureBody⟩, some (jsSubstring (textStr t) 5000)⟩ ∧
    analyze k t (.reply none) =
      ⟨⟨500, failureBody⟩, some (jsSubstring (textStr t) 5000)⟩ ∧
    fullShape failureBody = true := by
  refine ⟨?_, ?_, by decide⟩ <;> simp [analyze, ht, hk]

theorem analyze_failure_canned_witness :
    keyPresent (some "key") = true ∧ shortCircuit (.vStr fiftyA) = false ∧
    (analyze (some "key") (.vStr fiftyA) .throwErr =
      ⟨⟨500, failureBody⟩, some (jsSubstring (textStr (.vStr fiftyA)) 5000)⟩ ∧
    analyze (some "key") (.vStr fiftyA) (.reply none) =
      ⟨⟨500, failureBody⟩, some (jsSubstring (textStr (.vStr fiftyA)) 5000)⟩ ∧
    fullShape failureBody = true) :=
  ⟨by decide, by decide,
    analyze_failure_canned (some "key") (.vStr fiftyA) (by decide) (by decide)⟩

/-- C5 counterexample: a provider reply with the non-numeric score
`"abc"` is truthy, so `score || 5` keeps it and the clamp coerces it to
`NaN`: the normalized score is `NaN`, not the neutral default 5.  The
claim that a non-numeric score collapses to 5 is therefore false. -/
theorem falsy_default_cex :
    bodyField (analyze (some "key") (.vStr fiftyA)
      (.reply (some (.vObj [("score", .vStr "abc")])))).resp "score"
      = .vNaN ∧
    bodyField (analyze (some "key") (.vStr fiftyA)
      (.reply (some (.vObj [("score", .vStr "abc")])))).resp "score"
      ≠ .vNum 5 :=
  ⟨rfl, fun h => nomatch h⟩

/-- C5 (amended): for every provider reply object whose `score` field is
missing, zero, or otherwise falsy (null, false, the empty string), the
normalized score is the neutral default 5 — so a genuine provider score of
0 maps to 5, indistinguishable from a missing score.  Truthy non-numeric
scores are not defaulted; the clamp coerces them instead. -/
theorem falsy_default_amended (k : Option String) (t : JsVal)
    (fields : List (String × JsVal)) (hk : keyPresent k = true)
    (ht : shortCircuit t = false)
    (h : truthy (getField fields "score") = false) :
    bodyField (analyze k t (.reply (some (.vObj fields)))).resp "score"
      = .vNum 5 := by
  rw [analyze_obj _ _ _ hk ht]
  show getField (normalizeFields fields) "score" = .vNum 5
  rw [normalize_score, show jsOr (getField fields "score") (.vNum 5)
      = .vNum 5 from by simp [jsOr, h]]
  show JsVal.vNum (min 10 (max 0 5)) = .vNum 5
  rw [max_eq_right (by norm_num : (0 : ℚ) ≤ 5),
    min_eq_right (by norm_num : (5 : ℚ) ≤ 10)]

theorem falsy_default_amended_witness :
    keyPresent (some "key") = true ∧ shortCircuit (.vStr fiftyA) = false ∧
    truthy (getField [("score", .vNum 0)] "score") = false ∧
    bodyField (analyze (some "key") (.vStr fiftyA)
      (.reply (some (.vObj [("score", .vNum 0)])))).resp "score" = .vNum 5 :=
  ⟨by decide, by decide, by decide,
    falsy_default_amended (some "key") (.vStr fiftyA) [("score", .vNum 0)]
      (by decide) (by decide) (by decide)⟩

/-- C6: for a provider reply object omitting `sources`, the normalized
body's `sources` is the empty array (never null or absent); for one
omitting `claimsChecked` or supplying a falsy value for it, the normalized
body's `claimsChecked` is exactly 0. -/
theorem sources_claims_defaults (k : Option String) (t : JsVal)
    (fields : List (String × JsVal)) (hk : keyPresent k = true)
    (ht : shortCircuit t = false) :
    (hasKey fields "sources" = false →
      bodyField (analyze k t (.reply (some (.vObj fields)))).resp "sources"
        = .vArr []) ∧
    (truthy (getField fields "claimsChecked") = false →
      bodyField (analyze k t
        (.reply (some (.vObj fields)))).resp "claimsChecked" = .vNum 0) := by
  rw [analyze_obj _ _ _ hk ht]
  constructor
  · intro hs
    show getField (normalizeFields fields) "sources" = .vArr []
    rw [normalize_sources, getField_of_hasKey_false _ _ hs]
    rfl
  · intro hc
    show getField (normalizeFields fields) "claimsChecked" = .vNum 0
    rw [normalize_claims]
    simp [jsOr, hc]

theorem sources_claims_defaults_witness :
    keyPresent (some "key") = true ∧ shortCircuit (.vStr fiftyA) = false ∧
    ((hasKey ([] : List (String × JsVal)) "sources" = false →
      bodyField (analyze (some "key") (.vStr fiftyA)
        (.reply (some (.vObj [])))).resp "sources" = .vArr []) ∧
    (truthy (getField ([] : List (String × JsVal)) "claimsChecked") = false →
      bodyField (analyze (some "key") (.vStr fiftyA)
        (.reply (some (.vObj [])))).resp "claimsChecked" = .vNum 0)) :=
  ⟨by decide, by decide,
    sources_claims_defaults (some "key") (.vStr fiftyA) [] (by decide)
      (by decide)⟩

/-- C7: on the provider-call path the text sent onward is exactly
`text.substring(0, 5000)` — the first 5000 characters, or the whole text
when it is no longer than 5000 — and the truncation is silent: the HTTP
response is the same for any two valid input texts under the same provider
behaviour, carrying no signal of truncation. -/
theorem truncation_silent (k : Option String) (t t' : JsVal) (o : CallOutcome)
    (hk : keyPresent k = true) (ht : shortCircuit t = false)
    (ht' : shortCircuit t' = false) :
    (analyze k t o).sent = some (jsSubstring (textStr t) 5000) ∧
    (textLength t ≤ 5000 → (analyze k t o).sent = some (textStr t)) ∧
    (analyze k t o).resp = (analyze k t' o).resp := by
  have hsent : ∀ u : JsVal, shortCircuit u = false →
      (analyze k u o).sent = some (jsSubstring (textStr u) 5000) := by
    intro u hu
    cases o with
    | throwErr => simp [analyze, hu, hk]
    | reply p => cases p <;> simp [analyze, hu, hk]
  refine ⟨hsent t ht, ?_, ?_⟩
  · intro hlen
    rw [hsent t ht]
    cases t with
    | vStr s =>
      have hdata : s.toList.length ≤ 5000 := hlen
      simp only [textStr, jsSubstring, List.take_of_length_le hdata]
      obtain ⟨data⟩ := s
      rfl
    | vUndefined => simp [shortCircuit, truthy] at ht
    | vNull => simp [shortCircuit, truthy] at ht
    | vNaN => simp [shortCircuit, truthy] at ht
    | vBool b => simp [shortCircuit, isStringVal] at ht
    | vNum q => simp [shortCircuit, isStringVal] at ht
    | vArr xs => simp [shortCircuit, isStringVal] at ht
    | vObj fs => simp [shortCircuit, isStringVal] at ht
  · cases o with
    | throwErr => simp [analyze, ht, ht', hk]
    | reply p => cases p <;> simp [analyze, ht, ht', hk]

theorem truncation_silent_witness :
    keyPresent (some "key") = true ∧ shortCircuit (.vStr fiftyA) = false ∧
    shortCircuit (.vStr fiftyB) = false ∧
    ((analyze (some "key") (.vStr fiftyA) .throwErr).sent
      = some (jsSubstring (textStr (.vStr fiftyA)) 5000) ∧
    (textLength (.vStr fiftyA) ≤ 5000 →
      (analyze (some "key") (.vStr fiftyA) .throwErr).sent
        = some (textStr (.vStr fiftyA))) ∧
    (analyze (some "key") (.vStr fiftyA) .throwErr).resp
      = (analyze (some "key") (.vStr fiftyB) .throwErr).resp) :=
  ⟨by decide, by decide, by decide,
    truncation_silent (some "key") (.vStr fiftyA) (.vStr fiftyB) .throwErr
      (by decide) (by decide) (by decide)⟩

/-- C8: for a successfully parsed provider reply object, normalization
passes `risk` through unchanged — it touches only `score`, `sources` and
`claimsChecked`, and any other field (for example `summary`) of the reply
also reaches the response body unmodified; in particular no check of
`risk` against the enumerated labels or against the score occurs. -/
theorem risk_passthrough (k : Option String) (t : JsVal)
    (fields : List (String × JsVal)) (key : String)
    (hk : keyPresent k = true) (ht : shortCircuit t = false)
    (h1 : key ≠ "score") (h2 : key ≠ "sources") (h3 : key ≠ "claimsChecked") :
    bodyField (analyze k t (.reply (some (.vObj fields)))).resp "risk"
      = getField fields "risk" ∧
    bodyField (analyze k t (.reply (some (.vObj fields)))).resp key
      = getField fields key := by
  rw [analyze_obj _ _ _ hk ht]
  exact ⟨normalize_other _ _ (by decide) (by decide) (by decide),
    normalize_other _ _ h1 h2 h3⟩

theorem risk_passthrough_witness :
    keyPresent (some "key") = true ∧ shortCircuit (.vStr fiftyA) = false ∧
    (bodyField (analyze (some "key") (.vStr fiftyA)
      (.reply (some (.vObj [("risk", .vStr "Trustworthy"),
        ("summary", .vStr "fine")])))).resp "risk"
      = getField [("risk", .vStr "Trustworthy"), ("summary", .vStr "fine")]
          "risk" ∧
    bodyField (analyze (some "key") (.vStr fiftyA)
      (.reply (some (.vObj [("risk", .vStr "Trustworthy"),
        ("summary", .vStr "fine")])))).resp "summary"
      = getField [("risk", .vStr "Trustworthy"), ("summary", .vStr "fine")]
          "summary") :=
  ⟨by decide, by decide,
    risk_passthrough (some "key") (.vStr fiftyA)
      [("risk", .vStr "Trustworthy"), ("summary", .vStr "fine")] "summary"
      (by decide) (by decide) (by decide) (by decide) (by decide)⟩

/-- C9: every `GET /health` request returns status 200 with body
`{ status: "ok", timestamp: <ISO time now>, model: "gemini-2.0-flash-exp" }`,
for every process configuration — the handler reads no configuration, so
in particular an absent credential changes nothing. -/
theorem health_ok (k k' : Option String) (now : String) :
    healthHandler k now = ⟨200, .vObj [("status", .vStr "ok"),
      ("timestamp", .vStr now), ("model", .vStr "gemini-2.0-flash-exp")]⟩ ∧
    healthHandler k now = healthHandler k' now :=
  ⟨rfl, rfl⟩

/-- C10: a provider reply whose score is a (truthy) number outside
`[0, 10]` is clamped to the nearest bound — negative values yield 0 and
values above 10 yield 10; the neutral default 5 is never substituted for
such values, since the falsy-or-default applies before the clamp. -/
theorem score_clamp_bounds (k : Option String) (t : JsVal)
    (fields : List (String × JsVal)) (q : ℚ) (hk : keyPresent k = true)
    (ht : shortCircuit t = false)
    (hs : getField fields "score" = .vNum q) :
    (q < 0 → bodyField (analyze k t
      (.reply (some (.vObj fields)))).resp "score" = .vNum 0) ∧
    (10 < q → bodyField (analyze k t
      (.reply (some (.vObj fields)))).resp "score" = .vNum 10) := by
  have hbase : ∀ hq : q ≠ 0,
      bodyField (analyze k t (.reply (some (.vObj fields)))).resp "score"
        = .vNum (min 10 (max 0 q)) := by
    intro hq
    rw [analyze_obj _ _ _ hk ht]
    show getField (normalizeFields fields) "score" = .vNum (min 10 (max 0 q))
    rw [normalize_score, hs, show jsOr (.vNum q) (.vNum 5) = .vNum q from by
      simp [jsOr, truthy, hq]]
    rfl
  constructor
  · intro hq
    rw [hbase (ne_of_lt hq), max_eq_left (le_of_lt hq),
      min_eq_right (by norm_num : (0 : ℚ) ≤ 10)]
  · intro hq
    have h0 : (0 : ℚ) < q := lt_trans (by norm_num) hq
    rw [hbase (ne_of_gt h0), max_eq_right (le_of_lt h0),
      min_eq_left (le_of_lt hq)]

theorem score_clamp_bounds_witness :
    keyPresent (some "key") = true ∧ shortCircuit (.vStr fiftyA) = false ∧
    getField [("score", .vNum (-3))] "score" = .vNum (-3) ∧
    (((-3 : ℚ) < 0 → bodyField (analyze (some "key") (.vStr fiftyA)
      (.reply (some (.vObj [("score", .vNum (-3))])))).resp "score"
        = .vNum 0) ∧
    ((10 : ℚ) < -3 → bodyField (analyze (some "key") (.vStr fiftyA)
      (.reply (some (.vObj [("score", .vNum (-3))])))).resp "score"
        = .vNum 10)) :=
  ⟨by decide, by decide, rfl,
    score_clamp_bounds (some "key") (.vStr fiftyA) [("score", .vNum (-3))]
      (-3) (by decide) (by decide) rfl⟩

end FactChecker
